import Mathlib

/-!
# Verifiers of the AMX dialect operations

A shallow embedding of `mlir/lib/Dialect/AMX/IR/AMXDialect.cpp`: the two leaf
checks `verifyTileSize` and `verifyMultShape` and the five `verify` overloads
built from them (tile zero, load, store, float multiply, integer multiply).

Conventions of the embedding.

* A `LogicalResult` is returned together with the list of diagnostics the call
  emitted, in emission order (`Outcome`).  `op->emitOpError(msg) << x << ...`
  yields `failure` and emits one diagnostic whose text is the concatenation of
  the streamed pieces; the operation-name prefix that `emitOpError` puts in
  front of every message is left out.
* `VectorType::getDimSize` returns an `int64_t`, and a vector type only has
  positive dimension sizes, so dimension sizes are naturals.  Every value the
  source stores in an `unsigned` local is reduced modulo `2 ^ 32`
  (`toUnsigned`); comparisons and printing that the source performs on the
  `int64_t` value itself are done on the unreduced natural.  A product of two
  such values is reduced the same way when it is stored: whenever the 64-bit
  product is representable this is exact, and beyond that it is the value of
  the wrapping multiplication.
* `Type::getIntOrFloatBitWidth` returns an `unsigned`; element types are the
  builtin integer and floating-point types.
* The verifiers are also transcribed with the diagnostic stream passed
  explicitly (`verifyTileSizeRun`, `TileMulIOp.verifyRun`, ...), and each run
  is proved to return the verdict and to add the diagnostics of the
  corresponding `Outcome`.
-/

namespace AMX

/-! ## Host IR: results, diagnostics, types -/

/-- Verdict of a verifier (`mlir::LogicalResult`). -/
inductive LogicalResult
  | success
  | failure
  deriving DecidableEq, Repr

/-- The test `failed(r)` of the host framework. -/
def failed (r : LogicalResult) : Bool :=
  match r with
  | .success => false
  | .failure => true

/-- Result of running a check: the verdict and the diagnostics emitted while
computing it, oldest first. -/
structure Outcome where
  result : LogicalResult
  diags : List String
  deriving DecidableEq, Repr

/-- The value of `success()`: passes, nothing emitted. -/
def success : Outcome := ⟨.success, []⟩

/-- The value of `return op->emitOpError(...) << ...`: one diagnostic with the
given text is emitted and the in-flight diagnostic converts to `failure`. -/
def emitOpError (msg : String) : Outcome := ⟨.failure, [msg]⟩

/-- Signedness semantics carried by a builtin integer type. -/
inductive Signedness
  | signless
  | signed
  | unsigned
  deriving DecidableEq, Repr

/-- Element types a vector can have for which `getIntOrFloatBitWidth` is
defined: builtin integers of any width and signedness, and the builtin
floating-point types. -/
inductive ElementType
  | integer (width : Nat) (sign : Signedness)
  | bf16
  | f16
  | f32
  | f64
  | f80
  | f128
  deriving DecidableEq, Repr

namespace ElementType

/-- The test `Type::isBF16`. -/
def isBF16 : ElementType → Bool
  | bf16 => true
  | _ => false

/-- The test `Type::isF32`. -/
def isF32 : ElementType → Bool
  | f32 => true
  | _ => false

/-- The test `Type::isInteger(width)`: an integer type of that width, whatever
its signedness. -/
def isInteger (t : ElementType) (width : Nat) : Bool :=
  match t with
  | integer w _ => w == width
  | _ => false

/-- Whether the type is one of the floating-point types. -/
def isFloat : ElementType → Bool
  | integer _ _ => false
  | _ => true

/-- The accessor `Type::getIntOrFloatBitWidth`. -/
def getIntOrFloatBitWidth : ElementType → Nat
  | integer w _ => w
  | bf16 => 16
  | f16 => 16
  | f32 => 32
  | f64 => 64
  | f80 => 80
  | f128 => 128

end ElementType

/-- A two-dimensional vector type as the verifiers see it: `rows` is
`getDimSize(0)`, `columns` is `getDimSize(1)`, `elementType` is
`getElementType()`. -/
structure VectorType where
  rows : Nat
  columns : Nat
  elementType : ElementType
  deriving DecidableEq, Repr

/-- Conversion of an integer value to the 32-bit `unsigned` of the source. -/
def toUnsigned (x : Nat) : Nat := x % 2 ^ 32

/-! ## The two leaf checks -/

/-- The constant `kMaxRows` of `verifyTileSize`. -/
def kMaxRows : Nat := 16

/-- The constant `kBitsPerRow` of `verifyTileSize`. -/
def kBitsPerRow : Nat := 64 * 8

/-- Verify that AMX supports the implied tile shape (`verifyTileSize`).  The
column width `col` is an `unsigned` local initialised from the 64-bit product
of the column count and the element bit width; the row count is compared and
printed as the `int64_t` it is. -/
def verifyTileSize (tp : VectorType) : Outcome :=
  let col := toUnsigned (tp.columns * tp.elementType.getIntOrFloatBitWidth)
  if tp.rows > kMaxRows then
    emitOpError ("bad row height: " ++ toString tp.rows)
  else if col > kBitsPerRow ∨ col &&& 0x1f ≠ 0 then
    emitOpError ("bad column width: " ++ toString (col >>> 3))
  else
    success

/-- Verify that AMX supports the multiplication (`verifyMultShape`).  All six
extents are `unsigned` locals; the shift is done on the `int64_t` dimension
before the conversion.  The callers pass the scales 1 and 2. -/
def verifyMultShape (atp btp ctp : VectorType) (scale : Nat) : Outcome :=
  let am := toUnsigned atp.rows
  let ak := toUnsigned (atp.columns >>> scale)
  let bk := toUnsigned btp.rows
  let bn := toUnsigned (btp.columns >>> scale)
  let cm := toUnsigned ctp.rows
  let cn := toUnsigned ctp.columns
  if cm ≠ am ∨ cn ≠ bn ∨ ak ≠ bk then
    emitOpError ("bad mult shape: " ++ toString cm ++ " x " ++ toString cn
      ++ " x " ++ toString ak)
  else
    success

/-! ## The operations and their verifiers -/

/-- Operation `amx.tile_zero`: the tile type it produces. -/
structure TileZeroOp where
  vectorType : VectorType
  deriving DecidableEq, Repr

/-- Operation `amx.tile_load`: the rank of the memref type it reads
(`getMemRefType().getRank()`), the number of index operands
(`llvm::size(indices())`) and the tile type it produces. -/
structure TileLoadOp where
  memRefRank : Nat
  numIndices : Nat
  vectorType : VectorType
  deriving DecidableEq, Repr

/-- Operation `amx.tile_store`: the rank of the memref type it writes, the
number of index operands and the type of the stored tile. -/
structure TileStoreOp where
  memRefRank : Nat
  numIndices : Nat
  vectorType : VectorType
  deriving DecidableEq, Repr

/-- Operation `amx.tile_mulf`: the types of the left operand, of the right
operand and of the accumulator (which is also the result type). -/
structure TileMulFOp where
  lhs : VectorType
  rhs : VectorType
  acc : VectorType
  deriving DecidableEq, Repr

/-- Operation `amx.tile_muli`: the `zext` array attribute and the three tile
types. -/
structure TileMulIOp where
  zext : List Bool
  lhs : VectorType
  rhs : VectorType
  acc : VectorType
  deriving DecidableEq, Repr

/-- Verifier of `amx.tile_zero`. -/
def TileZeroOp.verify (op : TileZeroOp) : Outcome :=
  verifyTileSize op.vectorType

/-- Verifier of `amx.tile_load`.  The rank is read into an `unsigned`. -/
def TileLoadOp.verify (op : TileLoadOp) : Outcome :=
  let rank := toUnsigned op.memRefRank
  if op.numIndices ≠ rank then
    emitOpError ("requires " ++ toString rank ++ " indices")
  else
    verifyTileSize op.vectorType

/-- Verifier of `amx.tile_store`.  The rank is read into an `unsigned`. -/
def TileStoreOp.verify (op : TileStoreOp) : Outcome :=
  let rank := toUnsigned op.memRefRank
  if op.numIndices ≠ rank then
    emitOpError ("requires " ++ toString rank ++ " indices")
  else
    verifyTileSize op.vectorType

/-- Verifier of `amx.tile_mulf`.  The four shape checks are the operands of a
short-circuit disjunction: they run left to right, the first one that fails
stops the evaluation and the verifier returns `failure()` with whatever was
emitted so far. -/
def TileMulFOp.verify (op : TileMulFOp) : Outcome :=
  let aType := op.lhs
  let bType := op.rhs
  let cType := op.acc
  let r1 := verifyTileSize aType
  if failed r1.result then ⟨.failure, r1.diags⟩ else
  let r2 := verifyTileSize bType
  if failed r2.result then ⟨.failure, r1.diags ++ r2.diags⟩ else
  let r3 := verifyTileSize cType
  if failed r3.result then ⟨.failure, r1.diags ++ r2.diags ++ r3.diags⟩ else
  let r4 := verifyMultShape aType bType cType 1
  if failed r4.result then
    ⟨.failure, r1.diags ++ r2.diags ++ r3.diags ++ r4.diags⟩ else
  let shapeDiags := r1.diags ++ r2.diags ++ r3.diags ++ r4.diags
  let ta := aType.elementType
  let tb := bType.elementType
  let tc := cType.elementType
  if !ta.isBF16 || !tb.isBF16 || !tc.isF32 then
    ⟨.failure, shapeDiags ++ ["unsupported type combination"]⟩
  else
    ⟨.success, shapeDiags⟩

/-- Verifier of `amx.tile_muli`.  Same discipline as the float verifier, after
the test on the length of the `zext` attribute. -/
def TileMulIOp.verify (op : TileMulIOp) : Outcome :=
  if op.zext.length ≠ 2 then
    emitOpError "unexpected zext length"
  else
  let aType := op.lhs
  let bType := op.rhs
  let cType := op.acc
  let r1 := verifyTileSize aType
  if failed r1.result then ⟨.failure, r1.diags⟩ else
  let r2 := verifyTileSize bType
  if failed r2.result then ⟨.failure, r1.diags ++ r2.diags⟩ else
  let r3 := verifyTileSize cType
  if failed r3.result then ⟨.failure, r1.diags ++ r2.diags ++ r3.diags⟩ else
  let r4 := verifyMultShape aType bType cType 2
  if failed r4.result then
    ⟨.failure, r1.diags ++ r2.diags ++ r3.diags ++ r4.diags⟩ else
  let shapeDiags := r1.diags ++ r2.diags ++ r3.diags ++ r4.diags
  let ta := aType.elementType
  let tb := bType.elementType
  let tc := cType.elementType
  if !ta.isInteger 8 || !tb.isInteger 8 || !tc.isInteger 32 then
    ⟨.failure, shapeDiags ++ ["unsupported type combination"]⟩
  else
    ⟨.success, shapeDiags⟩

/-! ## Vocabulary of the specification -/

/-- A floating-point element type of the given bit width. -/
def ElementType.isFloatOfWidth (t : ElementType) (w : Nat) : Bool :=
  t.isFloat && t.getIntOrFloatBitWidth == w

/-- The report of the first failing check of a sequence: the outcome of the
first check whose verdict is `failure`, and a pass without diagnostic when
there is none. -/
def firstFailure : List Outcome → Outcome
  | [] => success
  | r :: rs => if r.result = .failure then r else firstFailure rs

/-- The element-type test of the float multiply verifier, as a check of its
own. -/
def checkFloatTypes (op : TileMulFOp) : Outcome :=
  if op.lhs.elementType.isBF16 ∧ op.rhs.elementType.isBF16
      ∧ op.acc.elementType.isF32 then
    success
  else
    emitOpError "unsupported type combination"

/-- The element-type test of the integer multiply verifier, as a check of its
own. -/
def checkIntTypes (op : TileMulIOp) : Outcome :=
  if op.lhs.elementType.isInteger 8 ∧ op.rhs.elementType.isInteger 8
      ∧ op.acc.elementType.isInteger 32 then
    success
  else
    emitOpError "unsupported type combination"

/-- The test on the extension-flag list of the integer multiply verifier, as a
check of its own. -/
def checkZextLength (op : TileMulIOp) : Outcome :=
  if op.zext.length = 2 then success else emitOpError "unexpected zext length"

/-! ## The verifiers as runs over the diagnostic stream

The only state the verifiers touch is the stream of diagnostics of the host:
`emitOpError` reports into it.  Here the source is transcribed a second time
with that stream passed explicitly, so that a run could depend on what has
been reported before it. -/

/-- The stream of diagnostics reported so far, oldest first. -/
abbrev DiagStream := List String

/-- The statement `return success()` in a run: the stream is left as it is. -/
def successRun (st : DiagStream) : LogicalResult × DiagStream := (.success, st)

/-- The statement `return op->emitOpError(...) << ...` in a run: the diagnostic
is reported at the end of the stream and the verdict is `failure`. -/
def emitOpErrorRun (msg : String) (st : DiagStream) : LogicalResult × DiagStream :=
  (.failure, st ++ [msg])

/-- A run of `verifyTileSize` from a given stream. -/
def verifyTileSizeRun (tp : VectorType) (st : DiagStream) :
    LogicalResult × DiagStream :=
  let col := toUnsigned (tp.columns * tp.elementType.getIntOrFloatBitWidth)
  if tp.rows > kMaxRows then
    emitOpErrorRun ("bad row height: " ++ toString tp.rows) st
  else if col > kBitsPerRow ∨ col &&& 0x1f ≠ 0 then
    emitOpErrorRun ("bad column width: " ++ toString (col >>> 3)) st
  else
    successRun st

/-- A run of `verifyMultShape` from a given stream. -/
def verifyMultShapeRun (atp btp ctp : VectorType) (scale : Nat) (st : DiagStream) :
    LogicalResult × DiagStream :=
  let am := toUnsigned atp.rows
  let ak := toUnsigned (atp.columns >>> scale)
  let bk := toUnsigned btp.rows
  let bn := toUnsigned (btp.columns >>> scale)
  let cm := toUnsigned ctp.rows
  let cn := toUnsigned ctp.columns
  if cm ≠ am ∨ cn ≠ bn ∨ ak ≠ bk then
    emitOpErrorRun ("bad mult shape: " ++ toString cm ++ " x " ++ toString cn
      ++ " x " ++ toString ak) st
  else
    successRun st

/-- A run of the verifier of `amx.tile_zero`. -/
def TileZeroOp.verifyRun (op : TileZeroOp) (st : DiagStream) :
    LogicalResult × DiagStream :=
  verifyTileSizeRun op.vectorType st

/-- A run of the verifier of `amx.tile_load`. -/
def TileLoadOp.verifyRun (op : TileLoadOp) (st : DiagStream) :
    LogicalResult × DiagStream :=
  let rank := toUnsigned op.memRefRank
  if op.numIndices ≠ rank then
    emitOpErrorRun ("requires " ++ toString rank ++ " indices") st
  else
    verifyTileSizeRun op.vectorType st

/-- A run of the verifier of `amx.tile_store`. -/
def TileStoreOp.verifyRun (op : TileStoreOp) (st : DiagStream) :
    LogicalResult × DiagStream :=
  let rank := toUnsigned op.memRefRank
  if op.numIndices ≠ rank then
    emitOpErrorRun ("requires " ++ toString rank ++ " indices") st
  else
    verifyTileSizeRun op.vectorType st

/-- A run of the verifier of `amx.tile_mulf`: each shape check runs from the
stream the previous one left, and `return failure()` leaves the stream as the
failing check left it. -/
def TileMulFOp.verifyRun (op : TileMulFOp) (st : DiagStream) :
    LogicalResult × DiagStream :=
  let aType := op.lhs
  let bType := op.rhs
  let cType := op.acc
  let r1 := verifyTileSizeRun aType st
  if failed r1.1 then (.failure, r1.2) else
  let r2 := verifyTileSizeRun bType r1.2
  if failed r2.1 then (.failure, r2.2) else
  let r3 := verifyTileSizeRun cType r2.2
  if failed r3.1 then (.failure, r3.2) else
  let r4 := verifyMultShapeRun aType bType cType 1 r3.2
  if failed r4.1 then (.failure, r4.2) else
  let ta := aType.elementType
  let tb := bType.elementType
  let tc := cType.elementType
  if !ta.isBF16 || !tb.isBF16 || !tc.isF32 then
    emitOpErrorRun "unsupported type combination" r4.2
  else
    successRun r4.2

/-- A run of the verifier of `amx.tile_muli`. -/
def TileMulIOp.verifyRun (op : TileMulIOp) (st : DiagStream) :
    LogicalResult × DiagStream :=
  if op.zext.length ≠ 2 then
    emitOpErrorRun "unexpected zext length" st
  else
  let aType := op.lhs
  let bType := op.rhs
  let cType := op.acc
  let r1 := verifyTileSizeRun aType st
  if failed r1.1 then (.failure, r1.2) else
  let r2 := verifyTileSizeRun bType r1.2
  if failed r2.1 then (.failure, r2.2) else
  let r3 := verifyTileSizeRun cType r2.2
  if failed r3.1 then (.failure, r3.2) else
  let r4 := verifyMultShapeRun aType bType cType 2 r3.2
  if failed r4.1 then (.failure, r4.2) else
  let ta := aType.elementType
  let tb := bType.elementType
  let tc := cType.elementType
  if !ta.isInteger 8 || !tb.isInteger 8 || !tc.isInteger 32 then
    emitOpErrorRun "unsupported type combination" r4.2
  else
    successRun r4.2

/-- Two runs of one verifier, from the streams `st1` and `st2`, report alike:
they return the same verdict, and there is one list of diagnostics that each
of them adds at the end of the stream it started from. -/
def SameReport (run : DiagStream → LogicalResult × DiagStream)
    (st1 st2 : DiagStream) : Prop :=
  (run st1).1 = (run st2).1
    ∧ ∃ d, (run st1).2 = st1 ++ d ∧ (run st2).2 = st2 ++ d

/-! ## Auxiliary facts -/

theorem land_mask_eq_mod (x : Nat) : x &&& 0x1f = x % 32 :=
  Nat.and_pow_two_sub_one_eq_mod x 5

theorem shiftRight_three (x : Nat) : x >>> 3 = x / 8 :=
  Nat.shiftRight_eq_div_pow x 3

/-- Unfolding of `verifyTileSize` with the bit operations replaced by their
arithmetic meaning. -/
theorem verifyTileSize_eq (tp : VectorType) :
    verifyTileSize tp =
      if 16 < tp.rows then
        emitOpError ("bad row height: " ++ toString tp.rows)
      else if 512 < (tp.columns * tp.elementType.getIntOrFloatBitWidth) % 2 ^ 32
          ∨ (tp.columns * tp.elementType.getIntOrFloatBitWidth) % 2 ^ 32 % 32 ≠ 0 then
        emitOpError ("bad column width: " ++
          toString ((tp.columns * tp.elementType.getIntOrFloatBitWidth) % 2 ^ 32 / 8))
      else success := by
  simp only [verifyTileSize, kMaxRows, kBitsPerRow, toUnsigned, land_mask_eq_mod,
    shiftRight_three, gt_iff_lt]

/-- A run of `verifyTileSize` either passes silently or fails with exactly one
diagnostic. -/
theorem verifyTileSize_cases (tp : VectorType) :
    verifyTileSize tp = ⟨.success, []⟩ ∨ ∃ d, verifyTileSize tp = ⟨.failure, [d]⟩ := by
  unfold verifyTileSize
  simp only [emitOpError, success]
  split
  · exact Or.inr ⟨_, rfl⟩
  · split
    · exact Or.inr ⟨_, rfl⟩
    · exact Or.inl rfl

/-- A run of `verifyMultShape` either passes silently or fails with exactly
one diagnostic. -/
theorem verifyMultShape_cases (a b c : VectorType) (s : Nat) :
    verifyMultShape a b c s = ⟨.success, []⟩
      ∨ ∃ d, verifyMultShape a b c s = ⟨.failure, [d]⟩ := by
  unfold verifyMultShape
  simp only [emitOpError, success]
  split
  · exact Or.inr ⟨_, rfl⟩
  · exact Or.inl rfl

/-- The float multiply verifier reports the first failing check of its
sequence. -/
theorem tileMulF_verify_eq_firstFailure (op : TileMulFOp) :
    op.verify = firstFailure [verifyTileSize op.lhs, verifyTileSize op.rhs,
      verifyTileSize op.acc, verifyMultShape op.lhs op.rhs op.acc 1,
      checkFloatTypes op] := by
  unfold TileMulFOp.verify
  rcases verifyTileSize_cases op.lhs with h1 | ⟨d1, h1⟩ <;>
  rcases verifyTileSize_cases op.rhs with h2 | ⟨d2, h2⟩ <;>
  rcases verifyTileSize_cases op.acc with h3 | ⟨d3, h3⟩ <;>
  rcases verifyMultShape_cases op.lhs op.rhs op.acc 1 with h4 | ⟨d4, h4⟩ <;>
  simp only [h1, h2, h3, h4, failed, firstFailure, checkFloatTypes] <;>
  cases op.lhs.elementType.isBF16 <;> cases op.rhs.elementType.isBF16 <;>
  cases op.acc.elementType.isF32 <;> simp [success, emitOpError]

/-- The integer multiply verifier reports the first failing check of its
sequence. -/
theorem tileMulI_verify_eq_firstFailure (op : TileMulIOp) :
    op.verify = firstFailure [checkZextLength op, verifyTileSize op.lhs,
      verifyTileSize op.rhs, verifyTileSize op.acc,
      verifyMultShape op.lhs op.rhs op.acc 2, checkIntTypes op] := by
  unfold TileMulIOp.verify
  by_cases hz : op.zext.length = 2
  · rcases verifyTileSize_cases op.lhs with h1 | ⟨d1, h1⟩ <;>
    rcases verifyTileSize_cases op.rhs with h2 | ⟨d2, h2⟩ <;>
    rcases verifyTileSize_cases op.acc with h3 | ⟨d3, h3⟩ <;>
    rcases verifyMultShape_cases op.lhs op.rhs op.acc 2 with h4 | ⟨d4, h4⟩ <;>
    simp only [h1, h2, h3, h4, hz, failed, firstFailure, checkIntTypes,
      checkZextLength] <;>
    cases op.lhs.elementType.isInteger 8 <;> cases op.rhs.elementType.isInteger 8 <;>
    cases op.acc.elementType.isInteger 32 <;> simp [success, emitOpError]
  · simp [hz, firstFailure, checkZextLength, emitOpError]

/-- Within the 32-bit range the column-width test of `verifyTileSize` is the
one on the exact product: a tile of at most 16 rows whose width in bits is
below `2 ^ 32` and exceeds 512 or is not a multiple of 32 is rejected, and the
diagnostic carries the width in bytes, rounded down. -/
theorem verifyTileSize_bad_column_width_of_lt (tp : VectorType)
    (hrows : tp.rows ≤ 16)
    (hlt : tp.columns * tp.elementType.getIntOrFloatBitWidth < 2 ^ 32)
    (hbad : 512 < tp.columns * tp.elementType.getIntOrFloatBitWidth
      ∨ (tp.columns * tp.elementType.getIntOrFloatBitWidth) % 32 ≠ 0) :
    verifyTileSize tp = ⟨.failure, ["bad column width: " ++
      toString (tp.columns * tp.elementType.getIntOrFloatBitWidth / 8)]⟩ := by
  rw [verifyTileSize_eq, Nat.mod_eq_of_lt hlt, if_neg (by omega), if_pos hbad]
  rfl

/-- When every dimension is below `2 ^ 32` the conversions of
`verifyMultShape` lose nothing and it accepts exactly the consistent
products. -/
theorem verifyMultShape_success_iff_of_lt (a b c : VectorType) (s : Nat)
    (ha : a.rows < 2 ^ 32) (hak : a.columns < 2 ^ 32)
    (hb : b.rows < 2 ^ 32) (hbn : b.columns < 2 ^ 32)
    (hc : c.rows < 2 ^ 32) (hcn : c.columns < 2 ^ 32) :
    (verifyMultShape a b c s).result = .success ↔
      c.rows = a.rows ∧ c.columns = b.columns >>> s ∧ a.columns >>> s = b.rows := by
  have h1 : a.columns >>> s < 2 ^ 32 :=
    lt_of_le_of_lt (by rw [Nat.shiftRight_eq_div_pow]; exact Nat.div_le_self _ _) hak
  have h2 : b.columns >>> s < 2 ^ 32 :=
    lt_of_le_of_lt (by rw [Nat.shiftRight_eq_div_pow]; exact Nat.div_le_self _ _) hbn
  unfold verifyMultShape
  simp only [toUnsigned, Nat.mod_eq_of_lt ha, Nat.mod_eq_of_lt hb, Nat.mod_eq_of_lt hc,
    Nat.mod_eq_of_lt hcn, Nat.mod_eq_of_lt h1, Nat.mod_eq_of_lt h2]
  split
  · rename_i h
    simp only [emitOpError, reduceCtorEq, false_iff]
    tauto
  · rename_i h
    simp only [success, true_iff]
    tauto

/-! ## The claims -/

/-- C1: a tile with at least one row and one column, at most 16 rows, and a
column width in bits (columns times element bit width) that is at most 512 and
a multiple of 32 passes `verifyTileSize`, and no diagnostic is emitted. -/
theorem verifyTileSize_accepts (tp : VectorType)
    (_hr : 1 ≤ tp.rows) (_hc : 1 ≤ tp.columns) (hrows : tp.rows ≤ 16)
    (hw : tp.columns * tp.elementType.getIntOrFloatBitWidth ≤ 512)
    (hm : (tp.columns * tp.elementType.getIntOrFloatBitWidth) % 32 = 0) :
    (verifyTileSize tp).result = .success ∧ (verifyTileSize tp).diags = [] := by
  have hlt : tp.columns * tp.elementType.getIntOrFloatBitWidth < 2 ^ 32 := by omega
  rw [verifyTileSize_eq, Nat.mod_eq_of_lt hlt]
  rw [if_neg (by omega), if_neg (by omega)]
  exact ⟨rfl, rfl⟩

/-- Witness of C1: the 16 x 16 tile of 32-bit floats, whose rows are exactly
512 bits wide. -/
theorem verifyTileSize_accepts_witness :
    (verifyTileSize ⟨16, 16, .f32⟩).result = .success
      ∧ (verifyTileSize ⟨16, 16, .f32⟩).diags = [] :=
  verifyTileSize_accepts ⟨16, 16, .f32⟩ (by decide) (by decide) (by decide)
    (by decide) (by decide)

/-- C2 (evaluation of the code where it departs from the claim): the tile
`vector<1x134217728xi32>` has rows of `2 ^ 32` bits, far above 512, and
`verifyTileSize` accepts it without a diagnostic, because the width is kept in
a 32-bit `unsigned` and wraps to 0; and on `vector<16x134217745xf32>`, whose
rows have `2 ^ 32 + 544` bits, that is 536870980 bytes, the diagnostic reports
68 bytes. -/
theorem verifyTileSize_column_width_wraps :
    (512 < 2 ^ 27 * 32
      ∧ verifyTileSize ⟨1, 2 ^ 27, .integer 32 .signless⟩ = ⟨.success, []⟩)
    ∧ ((2 ^ 27 + 17) * 32 / 8 = 536870980
      ∧ verifyTileSize ⟨16, 2 ^ 27 + 17, .f32⟩
        = ⟨.failure, ["bad column width: 68"]⟩) := by
  decide

/-- C3: a tile with more than 16 rows is rejected by `verifyTileSize` with the
single diagnostic "bad row height: " followed by the row count, whatever its
column count and element type. -/
theorem verifyTileSize_bad_row_height (tp : VectorType) (h : 16 < tp.rows) :
    verifyTileSize tp = ⟨.failure, ["bad row height: " ++ toString tp.rows]⟩ := by
  rw [verifyTileSize_eq, if_pos h]
  rfl

/-- Witness of C3: 17 rows, with a column width that is itself out of range. -/
theorem verifyTileSize_bad_row_height_witness :
    16 < 17 ∧ verifyTileSize ⟨17, 1000000, .f64⟩
      = ⟨.failure, ["bad row height: 17"]⟩ :=
  ⟨by decide, verifyTileSize_bad_row_height ⟨17, 1000000, .f64⟩ (by decide)⟩

/-- C4 (evaluation of the code where it departs from the claim): with scale 2,
A = `vector<16x17179869248xi8>`, B = `vector<16x64xi8>` and
C = `vector<16x16xi32>`, the shifted column count of A is `2 ^ 32 + 16`, not
the 16 rows of B, and `verifyMultShape` accepts, because the extent is kept in
a 32-bit `unsigned`; with C = `vector<16x8xi32>` the diagnostic prints 16 for
that extent; and the three tiles of the first product pass `verifyTileSize`,
so the integer multiply verifier accepts the operation. -/
theorem verifyMultShape_extent_wraps :
    ((2 ^ 34 + 64) >>> 2 = 2 ^ 32 + 16
      ∧ verifyMultShape ⟨16, 2 ^ 34 + 64, .integer 8 .signless⟩
          ⟨16, 64, .integer 8 .signless⟩ ⟨16, 16, .integer 32 .signless⟩ 2
        = ⟨.success, []⟩)
    ∧ verifyMultShape ⟨16, 2 ^ 34 + 64, .integer 8 .signless⟩
          ⟨16, 64, .integer 8 .signless⟩ ⟨16, 8, .integer 32 .signless⟩ 2
        = ⟨.failure, ["bad mult shape: 16 x 8 x 16"]⟩
    ∧ TileMulIOp.verify ⟨[false, false], ⟨16, 2 ^ 34 + 64, .integer 8 .signless⟩,
          ⟨16, 64, .integer 8 .signless⟩, ⟨16, 16, .integer 32 .signless⟩⟩
        = ⟨.success, []⟩ := by
  decide

/-- C5: an integer multiply operation with exactly two extension flags passes
its verifier if and only if each of the tiles A, B and C passes
`verifyTileSize`, the three shapes pass `verifyMultShape` with scale 2, and
the element types are an 8-bit integer for A, an 8-bit integer for B and a
32-bit integer for C. -/
theorem tileMulI_verify_success_iff (op : TileMulIOp) (hz : op.zext.length = 2) :
    op.verify.result = .success ↔
      (verifyTileSize op.lhs).result = .success
      ∧ (verifyTileSize op.rhs).result = .success
      ∧ (verifyTileSize op.acc).result = .success
      ∧ (verifyMultShape op.lhs op.rhs op.acc 2).result = .success
      ∧ op.lhs.elementType.isInteger 8 = true
      ∧ op.rhs.elementType.isInteger 8 = true
      ∧ op.acc.elementType.isInteger 32 = true := by
  rw [tileMulI_verify_eq_firstFailure]
  rcases verifyTileSize_cases op.lhs with h1 | ⟨d1, h1⟩ <;>
  rcases verifyTileSize_cases op.rhs with h2 | ⟨d2, h2⟩ <;>
  rcases verifyTileSize_cases op.acc with h3 | ⟨d3, h3⟩ <;>
  rcases verifyMultShape_cases op.lhs op.rhs op.acc 2 with h4 | ⟨d4, h4⟩ <;>
  simp only [h1, h2, h3, h4, hz, firstFailure, checkIntTypes, checkZextLength] <;>
  cases op.lhs.elementType.isInteger 8 <;> cases op.rhs.elementType.isInteger 8 <;>
  cases op.acc.elementType.isInteger 32 <;> simp [success, emitOpError]

/-- Witness of C5: with two flags, A = 16 x 64 of 8-bit integers, B = 16 x 64
of 8-bit integers and C = 16 x 16 of 32-bit integers, the operation is
accepted. -/
theorem tileMulI_verify_success_iff_witness :
    (TileMulIOp.verify ⟨[true, false], ⟨16, 64, .integer 8 .signless⟩,
      ⟨16, 64, .integer 8 .signless⟩, ⟨16, 16, .integer 32 .signless⟩⟩).result
      = .success :=
  (tileMulI_verify_success_iff ⟨[true, false], ⟨16, 64, .integer 8 .signless⟩,
      ⟨16, 64, .integer 8 .signless⟩, ⟨16, 16, .integer 32 .signless⟩⟩
    (by decide)).mpr (by decide)

/-- C6 as stated fails: A and B of type `f16`, a 16-bit float that is not
`bf16`, with C of type `f32`; the three tiles pass `verifyTileSize`, the
shapes pass `verifyMultShape` with scale 1, and the float multiply verifier
rejects the operation. -/
theorem tileMulF_rejects_f16 :
    (verifyTileSize ⟨16, 32, .f16⟩).result = .success
    ∧ (verifyTileSize ⟨16, 16, .f32⟩).result = .success
    ∧ (verifyMultShape ⟨16, 32, .f16⟩ ⟨16, 32, .f16⟩ ⟨16, 16, .f32⟩ 1).result
        = .success
    ∧ ElementType.f16.isFloatOfWidth 16 = true
    ∧ ElementType.f32.isFloatOfWidth 32 = true
    ∧ TileMulFOp.verify ⟨⟨16, 32, .f16⟩, ⟨16, 32, .f16⟩, ⟨16, 16, .f32⟩⟩
        = ⟨.failure, ["unsupported type combination"]⟩ := by
  decide

/-- C6, amended: a float multiply operation whose three tiles pass
`verifyTileSize` and whose shapes pass `verifyMultShape` with scale 1 is
accepted, without diagnostic, whenever A and B have element type `bf16` and C
has element type `f32`. -/
theorem tileMulF_accepts_bf16 (op : TileMulFOp)
    (ha : (verifyTileSize op.lhs).result = .success)
    (hb : (verifyTileSize op.rhs).result = .success)
    (hc : (verifyTileSize op.acc).result = .success)
    (hm : (verifyMultShape op.lhs op.rhs op.acc 1).result = .success)
    (hta : op.lhs.elementType = .bf16) (htb : op.rhs.elementType = .bf16)
    (htc : op.acc.elementType = .f32) :
    op.verify = ⟨.success, []⟩ := by
  rw [tileMulF_verify_eq_firstFailure]
  rcases verifyTileSize_cases op.lhs with h1 | ⟨d1, h1⟩ <;>
  rcases verifyTileSize_cases op.rhs with h2 | ⟨d2, h2⟩ <;>
  rcases verifyTileSize_cases op.acc with h3 | ⟨d3, h3⟩ <;>
  rcases verifyMultShape_cases op.lhs op.rhs op.acc 1 with h4 | ⟨d4, h4⟩ <;>
  simp [h1, h2, h3, h4, hta, htb, htc, firstFailure, checkFloatTypes,
    ElementType.isBF16, ElementType.isF32, success] at ha hb hc hm ⊢

/-- Witness of the amended C6: A = 16 x 32 and B = 16 x 32 of `bf16`,
C = 16 x 16 of `f32`. -/
theorem tileMulF_accepts_bf16_witness :
    TileMulFOp.verify ⟨⟨16, 32, .bf16⟩, ⟨16, 32, .bf16⟩, ⟨16, 16, .f32⟩⟩
      = ⟨.success, []⟩ :=
  tileMulF_accepts_bf16 ⟨⟨16, 32, .bf16⟩, ⟨16, 32, .bf16⟩, ⟨16, 16, .f32⟩⟩
    (by decide) (by decide) (by decide) (by decide) rfl rfl rfl

/-- C7: a float multiply operation whose three tiles pass `verifyTileSize` and
whose shapes pass `verifyMultShape` with scale 1, but whose element types are
not a 16-bit float for A, a 16-bit float for B and a 32-bit float for C, is
rejected with the single diagnostic "unsupported type combination". -/
theorem tileMulF_unsupported_types (op : TileMulFOp)
    (ha : (verifyTileSize op.lhs).result = .success)
    (hb : (verifyTileSize op.rhs).result = .success)
    (hc : (verifyTileSize op.acc).result = .success)
    (hm : (verifyMultShape op.lhs op.rhs op.acc 1).result = .success)
    (ht : ¬ (op.lhs.elementType.isFloatOfWidth 16 = true
      ∧ op.rhs.elementType.isFloatOfWidth 16 = true
      ∧ op.acc.elementType.isFloatOfWidth 32 = true)) :
    op.verify = ⟨.failure, ["unsupported type combination"]⟩ := by
  have hty : ¬ (op.lhs.elementType.isBF16 = true ∧ op.rhs.elementType.isBF16 = true
      ∧ op.acc.elementType.isF32 = true) := by
    intro h
    apply ht
    rcases h with ⟨h1, h2, h3⟩
    refine ⟨?_, ?_, ?_⟩
    · cases hA : op.lhs.elementType <;> simp_all [ElementType.isBF16,
        ElementType.isFloatOfWidth, ElementType.isFloat,
        ElementType.getIntOrFloatBitWidth]
    · cases hB : op.rhs.elementType <;> simp_all [ElementType.isBF16,
        ElementType.isFloatOfWidth, ElementType.isFloat,
        ElementType.getIntOrFloatBitWidth]
    · cases hC : op.acc.elementType <;> simp_all [ElementType.isF32,
        ElementType.isFloatOfWidth, ElementType.isFloat,
        ElementType.getIntOrFloatBitWidth]
  rw [tileMulF_verify_eq_firstFailure]
  rcases verifyTileSize_cases op.lhs with h1 | ⟨d1, h1⟩ <;>
  rcases verifyTileSize_cases op.rhs with h2 | ⟨d2, h2⟩ <;>
  rcases verifyTileSize_cases op.acc with h3 | ⟨d3, h3⟩ <;>
  rcases verifyMultShape_cases op.lhs op.rhs op.acc 1 with h4 | ⟨d4, h4⟩ <;>
  simp [h1, h2, h3, h4, hty, firstFailure, checkFloatTypes, success,
    emitOpError] at ha hb hc hm ⊢

/-- Witness of C7: A and B are valid `bf16` tiles and C is a 16 x 16 tile of
16-bit floats instead of 32-bit floats; the shapes are valid and the operation
is rejected for its types. -/
theorem tileMulF_unsupported_types_witness :
    ElementType.bf16.isFloatOfWidth 16 = true
    ∧ TileMulFOp.verify ⟨⟨16, 32, .bf16⟩, ⟨16, 32, .bf16⟩, ⟨16, 16, .bf16⟩⟩
      = ⟨.failure, ["unsupported type combination"]⟩ :=
  ⟨by decide,
   tileMulF_unsupported_types ⟨⟨16, 32, .bf16⟩, ⟨16, 32, .bf16⟩, ⟨16, 16, .bf16⟩⟩
    (by decide) (by decide) (by decide) (by decide) (by decide)⟩

/-- C8: an integer multiply operation whose extension-flag list does not have
exactly two entries is rejected with the single diagnostic "unexpected zext
length", whatever the shapes and element types of its tiles. -/
theorem tileMulI_bad_zext_length (op : TileMulIOp) (hz : op.zext.length ≠ 2) :
    op.verify = ⟨.failure, ["unexpected zext length"]⟩ := by
  unfold TileMulIOp.verify
  rw [if_pos hz]
  rfl

/-- Witness of C8: one flag only, on tiles that would be rejected for their
shape as well. -/
theorem tileMulI_bad_zext_length_witness :
    TileMulIOp.verify ⟨[true], ⟨17, 3, .f64⟩, ⟨16, 64, .integer 8 .signless⟩,
        ⟨16, 16, .integer 32 .signless⟩⟩
      = ⟨.failure, ["unexpected zext length"]⟩ :=
  tileMulI_bad_zext_length ⟨[true], ⟨17, 3, .f64⟩, ⟨16, 64, .integer 8 .signless⟩,
    ⟨16, 16, .integer 32 .signless⟩⟩ (by decide)

/-- C9: for a load operation (the rank of a memref type fits the `unsigned`
the verifier reads it into), when the number of indices differs from the rank
the verifier fails with the single diagnostic "requires {rank} indices",
whatever the tile shape is, and when they are equal its verdict and
diagnostics are exactly those of `verifyTileSize` on the tile type. -/
theorem tileLoad_verify_spec (op : TileLoadOp) (hrank : op.memRefRank < 2 ^ 32) :
    (op.numIndices ≠ op.memRefRank →
        op.verify = ⟨.failure, ["requires " ++ toString op.memRefRank ++ " indices"]⟩)
    ∧ (op.numIndices = op.memRefRank → op.verify = verifyTileSize op.vectorType) := by
  unfold TileLoadOp.verify
  simp only [toUnsigned, Nat.mod_eq_of_lt hrank]
  constructor
  · intro h
    rw [if_pos h]
    rfl
  · intro h
    rw [if_neg (by simpa using h)]

/-- Witness of C9: rank 2 with three indices on a tile of 17 rows, and rank 2
with two indices on the same tile. -/
theorem tileLoad_verify_spec_witness :
    TileLoadOp.verify ⟨2, 3, ⟨17, 16, .f32⟩⟩ = ⟨.failure, ["requires 2 indices"]⟩
    ∧ TileLoadOp.verify ⟨2, 2, ⟨17, 16, .f32⟩⟩ = ⟨.failure, ["bad row height: 17"]⟩ :=
  ⟨(tileLoad_verify_spec ⟨2, 3, ⟨17, 16, .f32⟩⟩ (by decide)).1 (by decide),
   ((tileLoad_verify_spec ⟨2, 2, ⟨17, 16, .f32⟩⟩ (by decide)).2 rfl).trans
     (by decide)⟩

/-- C10: each multiply verifier either passes without diagnostic or fails with
exactly one, and its outcome is that of the first failing check in the order
(integer only) flag arity, tile A, tile B, tile C, multiply shape, element
types.  In particular, with two flags, A = 16 x 64 and B = 16 x 64 of 8-bit
integers and C = 16 x 8, the integer verifier fails with "bad mult shape: 16 x
8 x 16", whether C holds 32-bit integers or the unsupported 16-bit
integers. -/
theorem mul_verifiers_report_first_failure :
    (∀ op : TileMulFOp,
      op.verify = firstFailure [verifyTileSize op.lhs, verifyTileSize op.rhs,
        verifyTileSize op.acc, verifyMultShape op.lhs op.rhs op.acc 1,
        checkFloatTypes op]
      ∧ (op.verify = ⟨.success, []⟩ ∨ ∃ d, op.verify = ⟨.failure, [d]⟩))
    ∧ (∀ op : TileMulIOp,
      op.verify = firstFailure [checkZextLength op, verifyTileSize op.lhs,
        verifyTileSize op.rhs, verifyTileSize op.acc,
        verifyMultShape op.lhs op.rhs op.acc 2, checkIntTypes op]
      ∧ (op.verify = ⟨.success, []⟩ ∨ ∃ d, op.verify = ⟨.failure, [d]⟩))
    ∧ TileMulIOp.verify ⟨[false, false], ⟨16, 64, .integer 8 .signless⟩,
        ⟨16, 64, .integer 8 .signless⟩, ⟨16, 8, .integer 32 .signless⟩⟩
      = ⟨.failure, ["bad mult shape: 16 x 8 x 16"]⟩
    ∧ TileMulIOp.verify ⟨[false, false], ⟨16, 64, .integer 8 .signless⟩,
        ⟨16, 64, .integer 8 .signless⟩, ⟨16, 8, .integer 16 .signless⟩⟩
      = ⟨.failure, ["bad mult shape: 16 x 8 x 16"]⟩ := by
  refine ⟨fun op => ⟨tileMulF_verify_eq_firstFailure op, ?_⟩,
    fun op => ⟨tileMulI_verify_eq_firstFailure op, ?_⟩, by decide, by decide⟩
  · rw [tileMulF_verify_eq_firstFailure]
    rcases verifyTileSize_cases op.lhs with h1 | ⟨d1, h1⟩ <;>
    rcases verifyTileSize_cases op.rhs with h2 | ⟨d2, h2⟩ <;>
    rcases verifyTileSize_cases op.acc with h3 | ⟨d3, h3⟩ <;>
    rcases verifyMultShape_cases op.lhs op.rhs op.acc 1 with h4 | ⟨d4, h4⟩ <;>
    simp only [h1, h2, h3, h4, firstFailure, checkFloatTypes] <;>
    cases op.lhs.elementType.isBF16 <;> cases op.rhs.elementType.isBF16 <;>
    cases op.acc.elementType.isF32 <;> simp [success, emitOpError]
  · rw [tileMulI_verify_eq_firstFailure]
    by_cases hz : op.zext.length = 2
    · rcases verifyTileSize_cases op.lhs with h1 | ⟨d1, h1⟩ <;>
      rcases verifyTileSize_cases op.rhs with h2 | ⟨d2, h2⟩ <;>
      rcases verifyTileSize_cases op.acc with h3 | ⟨d3, h3⟩ <;>
      rcases verifyMultShape_cases op.lhs op.rhs op.acc 2 with h4 | ⟨d4, h4⟩ <;>
      simp only [h1, h2, h3, h4, hz, firstFailure, checkIntTypes, checkZextLength] <;>
      cases op.lhs.elementType.isInteger 8 <;> cases op.rhs.elementType.isInteger 8 <;>
      cases op.acc.elementType.isInteger 32 <;> simp [success, emitOpError]
    · simp [hz, firstFailure, checkZextLength, emitOpError]

/-- Acceptance by `verifyTileSize`, in arithmetic terms. -/
theorem verifyTileSize_success_iff (tp : VectorType) :
    (verifyTileSize tp).result = .success ↔
      tp.rows ≤ 16
      ∧ (tp.columns * tp.elementType.getIntOrFloatBitWidth) % 2 ^ 32 ≤ 512
      ∧ (tp.columns * tp.elementType.getIntOrFloatBitWidth) % 2 ^ 32 % 32 = 0 := by
  rw [verifyTileSize_eq]
  split
  · simp only [emitOpError, reduceCtorEq, false_iff]
    omega
  · split
    · simp only [emitOpError, reduceCtorEq, false_iff]
      omega
    · simp only [success, true_iff]
      omega

/-- Acceptance by `verifyMultShape`, in arithmetic terms. -/
theorem verifyMultShape_success_iff (a b c : VectorType) (s : Nat) :
    (verifyMultShape a b c s).result = .success ↔
      c.rows % 2 ^ 32 = a.rows % 2 ^ 32
      ∧ c.columns % 2 ^ 32 = (b.columns / 2 ^ s) % 2 ^ 32
      ∧ (a.columns / 2 ^ s) % 2 ^ 32 = b.rows % 2 ^ 32 := by
  unfold verifyMultShape
  simp only [toUnsigned, Nat.shiftRight_eq_div_pow]
  split
  · simp only [emitOpError, reduceCtorEq, false_iff]
    tauto
  · simp only [success, true_iff]
    tauto

/-- The integer types of a given width are the only ones `isInteger` accepts,
and their bit width is that width. -/
theorem bitWidth_of_isInteger {t : ElementType} {w : Nat}
    (h : t.isInteger w = true) : t.getIntOrFloatBitWidth = w := by
  cases t <;> simp_all [ElementType.isInteger, ElementType.getIntOrFloatBitWidth]

/-- Acceptance by the integer multiply verifier: every check of its sequence
passes. -/
theorem tileMulI_verify_success_iff_checks (op : TileMulIOp) :
    op.verify.result = .success ↔
      op.zext.length = 2
      ∧ (verifyTileSize op.lhs).result = .success
      ∧ (verifyTileSize op.rhs).result = .success
      ∧ (verifyTileSize op.acc).result = .success
      ∧ (verifyMultShape op.lhs op.rhs op.acc 2).result = .success
      ∧ op.lhs.elementType.isInteger 8 = true
      ∧ op.rhs.elementType.isInteger 8 = true
      ∧ op.acc.elementType.isInteger 32 = true := by
  rw [tileMulI_verify_eq_firstFailure]
  by_cases hz : op.zext.length = 2
  · rcases verifyTileSize_cases op.lhs with h1 | ⟨d1, h1⟩ <;>
    rcases verifyTileSize_cases op.rhs with h2 | ⟨d2, h2⟩ <;>
    rcases verifyTileSize_cases op.acc with h3 | ⟨d3, h3⟩ <;>
    rcases verifyMultShape_cases op.lhs op.rhs op.acc 2 with h4 | ⟨d4, h4⟩ <;>
    simp only [h1, h2, h3, h4, hz, firstFailure, checkIntTypes, checkZextLength] <;>
    cases op.lhs.elementType.isInteger 8 <;> cases op.rhs.elementType.isInteger 8 <;>
    cases op.acc.elementType.isInteger 32 <;> simp [success, emitOpError]
  · simp [hz, firstFailure, checkZextLength, emitOpError]

/-- The only type `isBF16` accepts is `bf16`. -/
theorem eq_bf16_of_isBF16 {t : ElementType} (h : t.isBF16 = true) : t = .bf16 := by
  cases t <;> simp_all [ElementType.isBF16]

/-- The only type `isF32` accepts is `f32`. -/
theorem eq_f32_of_isF32 {t : ElementType} (h : t.isF32 = true) : t = .f32 := by
  cases t <;> simp_all [ElementType.isF32]

/-- Acceptance by the float multiply verifier: every check of its sequence
passes. -/
theorem tileMulF_verify_success_iff_checks (op : TileMulFOp) :
    op.verify.result = .success ↔
      (verifyTileSize op.lhs).result = .success
      ∧ (verifyTileSize op.rhs).result = .success
      ∧ (verifyTileSize op.acc).result = .success
      ∧ (verifyMultShape op.lhs op.rhs op.acc 1).result = .success
      ∧ op.lhs.elementType.isBF16 = true
      ∧ op.rhs.elementType.isBF16 = true
      ∧ op.acc.elementType.isF32 = true := by
  rw [tileMulF_verify_eq_firstFailure]
  rcases verifyTileSize_cases op.lhs with h1 | ⟨d1, h1⟩ <;>
  rcases verifyTileSize_cases op.rhs with h2 | ⟨d2, h2⟩ <;>
  rcases verifyTileSize_cases op.acc with h3 | ⟨d3, h3⟩ <;>
  rcases verifyMultShape_cases op.lhs op.rhs op.acc 1 with h4 | ⟨d4, h4⟩ <;>
  simp only [h1, h2, h3, h4, firstFailure, checkFloatTypes] <;>
  cases op.lhs.elementType.isBF16 <;> cases op.rhs.elementType.isBF16 <;>
  cases op.acc.elementType.isF32 <;> simp [success, emitOpError]

/-- Away from the 32-bit wrap-around (column counts below `2 ^ 27`) the
integer multiply verifier accepts exactly the operations with two flags,
element types 8-bit integer, 8-bit integer and 32-bit integer, and shapes
M x 4K, K x 4N and M x N with M, K and N between 1 and 16. -/
theorem tileMulI_verify_success_iff_shapes_of_lt (op : TileMulIOp)
    (ha0 : 1 ≤ op.lhs.rows) (hb0 : 1 ≤ op.rhs.rows) (hc0 : 1 ≤ op.acc.rows)
    (ha1 : 1 ≤ op.lhs.columns) (hb1 : 1 ≤ op.rhs.columns) (hc1 : 1 ≤ op.acc.columns)
    (ha : op.lhs.columns < 2 ^ 27) (hb : op.rhs.columns < 2 ^ 27)
    (hc : op.acc.columns < 2 ^ 27) :
    op.verify.result = .success ↔
      op.zext.length = 2
      ∧ op.lhs.elementType.isInteger 8 = true
      ∧ op.rhs.elementType.isInteger 8 = true
      ∧ op.acc.elementType.isInteger 32 = true
      ∧ ∃ M K N, 1 ≤ M ∧ M ≤ 16 ∧ 1 ≤ K ∧ K ≤ 16 ∧ 1 ≤ N ∧ N ≤ 16
          ∧ op.lhs.rows = M ∧ op.lhs.columns = 4 * K
          ∧ op.rhs.rows = K ∧ op.rhs.columns = 4 * N
          ∧ op.acc.rows = M ∧ op.acc.columns = N := by
  rw [tileMulI_verify_success_iff_checks]
  simp only [verifyTileSize_success_iff, verifyMultShape_success_iff]
  norm_num only at ha hb hc ⊢
  constructor
  · rintro ⟨hz, ⟨h1, h2, h3⟩, ⟨h4, h5, h6⟩, ⟨h7, h8, h9⟩, ⟨h10, h11, h12⟩, ta, tb, tc⟩
    rw [bitWidth_of_isInteger ta] at h2 h3
    rw [bitWidth_of_isInteger tb] at h5 h6
    rw [bitWidth_of_isInteger tc] at h8 h9
    refine ⟨hz, ta, tb, tc, op.lhs.rows, op.rhs.rows, op.acc.columns, ?_⟩
    omega
  · rintro ⟨hz, ta, tb, tc, M, K, N, hM0, hM, hK0, hK, hN0, hN, e1, e2, e3, e4, e5, e6⟩
    rw [bitWidth_of_isInteger ta, bitWidth_of_isInteger tb, bitWidth_of_isInteger tc]
    refine ⟨hz, ?_, ?_, ?_, ?_, ta, tb, tc⟩ <;> omega

/-- Away from the 32-bit wrap-around (column counts below `2 ^ 27`) an
accepted float multiply has `bf16` operands and an `f32` accumulator, and its
extents are recovered exactly by the shift and lie within the tile limits. -/
theorem tileMulF_verify_success_shapes_of_lt (op : TileMulFOp)
    (ha : op.lhs.columns < 2 ^ 27) (hb : op.rhs.columns < 2 ^ 27)
    (hc : op.acc.columns < 2 ^ 27)
    (h : op.verify.result = .success) :
    op.lhs.elementType = .bf16 ∧ op.rhs.elementType = .bf16
      ∧ op.acc.elementType = .f32
      ∧ op.acc.rows = op.lhs.rows ∧ op.lhs.rows ≤ 16
      ∧ op.lhs.columns = 2 * op.rhs.rows ∧ op.lhs.columns ≤ 32
      ∧ op.rhs.columns = 2 * op.acc.columns ∧ op.rhs.columns ≤ 32
      ∧ op.acc.columns ≤ 16 := by
  rw [tileMulF_verify_success_iff_checks] at h
  simp only [verifyTileSize_success_iff, verifyMultShape_success_iff] at h
  obtain ⟨⟨h1, h2, h3⟩, ⟨h4, h5, h6⟩, ⟨h7, h8, h9⟩, ⟨h10, h11, h12⟩, ta, tb, tc⟩ := h
  replace ta := eq_bf16_of_isBF16 ta
  replace tb := eq_bf16_of_isBF16 tb
  replace tc := eq_f32_of_isF32 tc
  rw [ta] at h2 h3
  rw [tb] at h5 h6
  rw [tc] at h8 h9
  simp only [ElementType.getIntOrFloatBitWidth] at h2 h3 h5 h6 h8 h9
  norm_num only at ha hb hc h2 h3 h5 h6 h8 h9 h10 h11 h12
  refine ⟨ta, tb, tc, ?_⟩
  omega

/-- C11: the store verifier is the load verifier: on the same memref rank,
number of indices and tile type both return the same verdict and the same
diagnostics. -/
theorem tileStore_verify_eq_tileLoad (rank numIndices : Nat) (tp : VectorType) :
    TileStoreOp.verify ⟨rank, numIndices, tp⟩
      = TileLoadOp.verify ⟨rank, numIndices, tp⟩ := by
  unfold TileStoreOp.verify TileLoadOp.verify
  rfl

/-- C12: the zero-initialize verifier returns exactly the outcome of
`verifyTileSize` on the tile type of the operation, so it succeeds if and only
if `verifyTileSize` does. -/
theorem tileZero_verify_eq_verifyTileSize (op : TileZeroOp) :
    op.verify = verifyTileSize op.vectorType
    ∧ (op.verify.result = .success ↔
        (verifyTileSize op.vectorType).result = .success) := by
  unfold TileZeroOp.verify
  exact ⟨rfl, Iff.rfl⟩

/-- A run of `verifyTileSize` returns the verdict of the check and adds its
diagnostics to the stream. -/
theorem verifyTileSizeRun_eq (tp : VectorType) (st : DiagStream) :
    verifyTileSizeRun tp st
      = ((verifyTileSize tp).result, st ++ (verifyTileSize tp).diags) := by
  unfold verifyTileSizeRun verifyTileSize
  simp only [emitOpErrorRun, successRun, emitOpError, success]
  split
  · rfl
  · split
    · rfl
    · simp

/-- A run of `verifyMultShape` returns the verdict of the check and adds its
diagnostics to the stream. -/
theorem verifyMultShapeRun_eq (a b c : VectorType) (s : Nat) (st : DiagStream) :
    verifyMultShapeRun a b c s st
      = ((verifyMultShape a b c s).result, st ++ (verifyMultShape a b c s).diags) := by
  unfold verifyMultShapeRun verifyMultShape
  simp only [emitOpErrorRun, successRun, emitOpError, success]
  split
  · rfl
  · simp

/-- A run of the zero verifier returns its verdict and adds its diagnostics. -/
theorem tileZero_verifyRun_eq (op : TileZeroOp) (st : DiagStream) :
    op.verifyRun st = (op.verify.result, st ++ op.verify.diags) := by
  unfold TileZeroOp.verifyRun TileZeroOp.verify
  exact verifyTileSizeRun_eq _ _

/-- A run of the load verifier returns its verdict and adds its diagnostics. -/
theorem tileLoad_verifyRun_eq (op : TileLoadOp) (st : DiagStream) :
    op.verifyRun st = (op.verify.result, st ++ op.verify.diags) := by
  unfold TileLoadOp.verifyRun TileLoadOp.verify
  simp only [verifyTileSizeRun_eq, emitOpErrorRun, emitOpError]
  split <;> rfl

/-- A run of the store verifier returns its verdict and adds its diagnostics. -/
theorem tileStore_verifyRun_eq (op : TileStoreOp) (st : DiagStream) :
    op.verifyRun st = (op.verify.result, st ++ op.verify.diags) := by
  unfold TileStoreOp.verifyRun TileStoreOp.verify
  simp only [verifyTileSizeRun_eq, emitOpErrorRun, emitOpError]
  split <;> rfl

/-- A run of the float multiply verifier returns its verdict and adds its
diagnostics. -/
theorem tileMulF_verifyRun_eq (op : TileMulFOp) (st : DiagStream) :
    op.verifyRun st = (op.verify.result, st ++ op.verify.diags) := by
  unfold TileMulFOp.verifyRun TileMulFOp.verify
  simp only [verifyTileSizeRun_eq, verifyMultShapeRun_eq]
  rcases verifyTileSize_cases op.lhs with h1 | ⟨d1, h1⟩ <;>
  rcases verifyTileSize_cases op.rhs with h2 | ⟨d2, h2⟩ <;>
  rcases verifyTileSize_cases op.acc with h3 | ⟨d3, h3⟩ <;>
  rcases verifyMultShape_cases op.lhs op.rhs op.acc 1 with h4 | ⟨d4, h4⟩ <;>
  simp only [h1, h2, h3, h4, failed] <;>
  cases op.lhs.elementType.isBF16 <;> cases op.rhs.elementType.isBF16 <;>
  cases op.acc.elementType.isF32 <;> simp [emitOpErrorRun, successRun]

/-- A run of the integer multiply verifier returns its verdict and adds its
diagnostics. -/
theorem tileMulI_verifyRun_eq (op : TileMulIOp) (st : DiagStream) :
    op.verifyRun st = (op.verify.result, st ++ op.verify.diags) := by
  unfold TileMulIOp.verifyRun TileMulIOp.verify
  simp only [verifyTileSizeRun_eq, verifyMultShapeRun_eq]
  by_cases hz : op.zext.length = 2
  · rcases verifyTileSize_cases op.lhs with h1 | ⟨d1, h1⟩ <;>
    rcases verifyTileSize_cases op.rhs with h2 | ⟨d2, h2⟩ <;>
    rcases verifyTileSize_cases op.acc with h3 | ⟨d3, h3⟩ <;>
    rcases verifyMultShape_cases op.lhs op.rhs op.acc 2 with h4 | ⟨d4, h4⟩ <;>
    simp only [h1, h2, h3, h4, hz, failed] <;>
    cases op.lhs.elementType.isInteger 8 <;> cases op.rhs.elementType.isInteger 8 <;>
    cases op.acc.elementType.isInteger 32 <;> simp [emitOpErrorRun, successRun]
  · simp [hz, emitOpErrorRun, emitOpError]

/-- A run that returns a fixed verdict and adds a fixed list of diagnostics
reports alike from any two streams. -/
theorem sameReport_of_eq {run : DiagStream → LogicalResult × DiagStream}
    {v : LogicalResult} {d : List String} (h : ∀ st, run st = (v, st ++ d))
    (st1 st2 : DiagStream) : SameReport run st1 st2 := by
  refine ⟨by rw [h st1, h st2], d, by rw [h st1], by rw [h st2]⟩

/-- C13: each of the five verifiers is deterministic.  With the diagnostic
stream passed explicitly, two runs on the same operation, from any two
streams and in particular one right after the other, return the same verdict
and add the same diagnostics to the stream; the verdict and the added
diagnostics are those of the verifier as a function of the operation.  For
instance two consecutive runs of the integer multiply verifier on
A = 16 x 64 and B = 16 x 64 of 8-bit integers and C = 16 x 8 of 32-bit
integers, after one earlier diagnostic, report "bad mult shape: 16 x 8 x 16"
twice. -/
theorem verifier_runs_deterministic :
    (∀ (op : TileZeroOp) (st1 st2 : DiagStream),
      SameReport op.verifyRun st1 st2
      ∧ SameReport op.verifyRun st1 (op.verifyRun st1).2
      ∧ op.verifyRun st1 = (op.verify.result, st1 ++ op.verify.diags))
    ∧ (∀ (op : TileLoadOp) (st1 st2 : DiagStream),
      SameReport op.verifyRun st1 st2
      ∧ SameReport op.verifyRun st1 (op.verifyRun st1).2
      ∧ op.verifyRun st1 = (op.verify.result, st1 ++ op.verify.diags))
    ∧ (∀ (op : TileStoreOp) (st1 st2 : DiagStream),
      SameReport op.verifyRun st1 st2
      ∧ SameReport op.verifyRun st1 (op.verifyRun st1).2
      ∧ op.verifyRun st1 = (op.verify.result, st1 ++ op.verify.diags))
    ∧ (∀ (op : TileMulFOp) (st1 st2 : DiagStream),
      SameReport op.verifyRun st1 st2
      ∧ SameReport op.verifyRun st1 (op.verifyRun st1).2
      ∧ op.verifyRun st1 = (op.verify.result, st1 ++ op.verify.diags))
    ∧ (∀ (op : TileMulIOp) (st1 st2 : DiagStream),
      SameReport op.verifyRun st1 st2
      ∧ SameReport op.verifyRun st1 (op.verifyRun st1).2
      ∧ op.verifyRun st1 = (op.verify.result, st1 ++ op.verify.diags))
    ∧ TileMulIOp.verifyRun ⟨[false, false], ⟨16, 64, .integer 8 .signless⟩,
          ⟨16, 64, .integer 8 .signless⟩, ⟨16, 8, .integer 32 .signless⟩⟩
        ["requires 2 indices"]
      = (.failure, ["requires 2 indices", "bad mult shape: 16 x 8 x 16"])
    ∧ TileMulIOp.verifyRun ⟨[false, false], ⟨16, 64, .integer 8 .signless⟩,
          ⟨16, 64, .integer 8 .signless⟩, ⟨16, 8, .integer 32 .signless⟩⟩
        ["requires 2 indices", "bad mult shape: 16 x 8 x 16"]
      = (.failure, ["requires 2 indices", "bad mult shape: 16 x 8 x 16",
          "bad mult shape: 16 x 8 x 16"]) := by
  refine ⟨fun op st1 st2 => ⟨?_, ?_, ?_⟩, fun op st1 st2 => ⟨?_, ?_, ?_⟩,
    fun op st1 st2 => ⟨?_, ?_, ?_⟩, fun op st1 st2 => ⟨?_, ?_, ?_⟩,
    fun op st1 st2 => ⟨?_, ?_, ?_⟩, by decide, by decide⟩
  · exact sameReport_of_eq (tileZero_verifyRun_eq op) _ _
  · exact sameReport_of_eq (tileZero_verifyRun_eq op) _ _
  · exact tileZero_verifyRun_eq op st1
  · exact sameReport_of_eq (tileLoad_verifyRun_eq op) _ _
  · exact sameReport_of_eq (tileLoad_verifyRun_eq op) _ _
  · exact tileLoad_verifyRun_eq op st1
  · exact sameReport_of_eq (tileStore_verifyRun_eq op) _ _
  · exact sameReport_of_eq (tileStore_verifyRun_eq op) _ _
  · exact tileStore_verifyRun_eq op st1
  · exact sameReport_of_eq (tileMulF_verifyRun_eq op) _ _
  · exact sameReport_of_eq (tileMulF_verifyRun_eq op) _ _
  · exact tileMulF_verifyRun_eq op st1
  · exact sameReport_of_eq (tileMulI_verifyRun_eq op) _ _
  · exact sameReport_of_eq (tileMulI_verifyRun_eq op) _ _
  · exact tileMulI_verifyRun_eq op st1

/-- C14 (evaluation of the code where it departs from the claim): the integer
multiply on A = `vector<16x17179869248xi8>`, B = `vector<16x64xi8>` and
C = `vector<16x16xi32>` with two flags is accepted without diagnostic, although
A has `2 ^ 34 + 64` columns, which is neither four times the 16 rows of B nor
within 64 bytes per row. -/
theorem tileMulI_accepts_oversized_tile :
    TileMulIOp.verify ⟨[false, false], ⟨16, 2 ^ 34 + 64, .integer 8 .signless⟩,
        ⟨16, 64, .integer 8 .signless⟩, ⟨16, 16, .integer 32 .signless⟩⟩
      = ⟨.success, []⟩
    ∧ 2 ^ 34 + 64 ≠ 4 * 16
    ∧ ¬ ((2 ^ 34 + 64) * 8 ≤ 64 * 8) := by
  decide

/-- C15 (evaluation of the code where it departs from the claim): the float
multiply on A = `vector<16x8589934624xbf16>`, B = `vector<16x32xbf16>` and
C = `vector<16x16xf32>` is accepted without diagnostic, although A has
`2 ^ 33 + 32` columns, which is neither twice the 16 rows of B nor at most
32. -/
theorem tileMulF_accepts_oversized_tile :
    TileMulFOp.verify ⟨⟨16, 2 ^ 33 + 32, .bf16⟩, ⟨16, 32, .bf16⟩, ⟨16, 16, .f32⟩⟩
      = ⟨.success, []⟩
    ∧ 2 ^ 33 + 32 ≠ 2 * 16
    ∧ ¬ (2 ^ 33 + 32 ≤ 32) := by
  decide

/-- C16: `verifyMultShape` sees the column counts of A and B only through
their values shifted right by the scale: two calls whose A tiles have the same
rows and the same shifted columns, whose B tiles have the same rows and the
same shifted columns, and that share C and the scale, return the same verdict
and diagnostics.  Hence with scale 2 it accepts A = 16 x 67, whose column
count is not a multiple of 4, with B = 16 x 64 and C = 16 x 16. -/
theorem verifyMultShape_shifted_columns_only (a a2 b b2 c : VectorType) (s : Nat)
    (har : a.rows = a2.rows) (hbr : b.rows = b2.rows)
    (hac : a.columns >>> s = a2.columns >>> s)
    (hbc : b.columns >>> s = b2.columns >>> s) :
    verifyMultShape a b c s = verifyMultShape a2 b2 c s
    ∧ verifyMultShape ⟨16, 67, .integer 8 .signless⟩ ⟨16, 64, .integer 8 .signless⟩
        ⟨16, 16, .integer 32 .signless⟩ 2 = ⟨.success, []⟩
    ∧ ¬ (2 ^ 2 ∣ 67) := by
  refine ⟨?_, by decide, by decide⟩
  unfold verifyMultShape
  rw [har, hbr, hac, hbc]

/-- Witness of C16: with scale 2, A = 16 x 67 and A = 16 x 64 are treated
alike. -/
theorem verifyMultShape_shifted_columns_only_witness :
    verifyMultShape ⟨16, 67, .integer 8 .signless⟩ ⟨16, 64, .integer 8 .signless⟩
        ⟨16, 16, .integer 32 .signless⟩ 2
      = verifyMultShape ⟨16, 64, .integer 8 .signless⟩ ⟨16, 64, .integer 8 .signless⟩
        ⟨16, 16, .integer 32 .signless⟩ 2 :=
  (verifyMultShape_shifted_columns_only ⟨16, 67, .integer 8 .signless⟩
    ⟨16, 64, .integer 8 .signless⟩ ⟨16, 64, .integer 8 .signless⟩
    ⟨16, 64, .integer 8 .signless⟩ ⟨16, 16, .integer 32 .signless⟩ 2
    rfl rfl (by decide) rfl).1

end AMX
